import Mathlib

/-!
Verification of the fitcheck voice app (src/src/App.tsx): a shallow
embedding of the recommendation resolver, the speech-capture result
handler, and the session state machine, together with theorems about
the properties the specification states.
-/

namespace Fitcheck

/-- Icons attached to recommendation cards (lucide-react components in the
source; modelled as an enumeration since only identity matters). -/
inductive Icon where
  | Shirt
  | ShoppingBag
  | Footprints
deriving DecidableEq, Repr

/-- The `OutfitRecommendation` record from App.tsx: a category name, an
ordered list of item strings, and an icon. -/
structure OutfitRecommendation where
  category : String
  items : List String
  icon : Icon
deriving DecidableEq, Repr

/-- JavaScript `String.prototype.toLowerCase` (ASCII-faithful): lowercase
every character of the string. -/
def strToLower (s : String) : String := ⟨s.data.map Char.toLower⟩

/-- JavaScript `String.prototype.includes`: `strIncludes s pat` is true iff
`pat` occurs as a contiguous substring of `s`. -/
def includesAux (pat : List Char) : List Char → Bool
  | [] => pat.isEmpty
  | c :: cs => pat.isPrefixOf (c :: cs) || includesAux pat cs

def strIncludes (s pat : String) : Bool :=
  includesAux pat.toList s.toList

/-- The Date-night outfit set (first branch of generateOutfitRecommendations). -/
def dateNightSet : List OutfitRecommendation :=
  [ { category := "Top",
      items := ["Fitted button-down shirt", "Slim-fit blazer", "Dark colored polo"],
      icon := .Shirt },
    { category := "Bottom",
      items := ["Dark wash jeans", "Chinos in navy or grey", "Tailored dress pants"],
      icon := .ShoppingBag },
    { category := "Footwear",
      items := ["Chelsea boots", "Leather loafers", "Clean white sneakers"],
      icon := .Footprints } ]

/-- The Brunch outfit set (second branch). -/
def brunchSet : List OutfitRecommendation :=
  [ { category := "Top",
      items := ["Casual henley", "Light sweater", "Graphic tee with overshirt"],
      icon := .Shirt },
    { category := "Bottom",
      items := ["Light wash jeans", "Khaki chinos", "Comfortable joggers"],
      icon := .ShoppingBag },
    { category := "Footwear",
      items := ["Canvas sneakers", "Casual loafers", "Stylish sandals"],
      icon := .Footprints } ]

/-- The Work outfit set (third branch). -/
def workSet : List OutfitRecommendation :=
  [ { category := "Top",
      items := ["Crisp dress shirt", "Professional blazer", "Knit polo"],
      icon := .Shirt },
    { category := "Bottom",
      items := ["Dress pants", "Grey wool trousers", "Dark chinos"],
      icon := .ShoppingBag },
    { category := "Footwear",
      items := ["Oxford dress shoes", "Derby shoes", "Minimalist leather sneakers"],
      icon := .Footprints } ]

/-- The default Casual outfit set (else branch). -/
def casualSet : List OutfitRecommendation :=
  [ { category := "Top",
      items := ["Comfortable t-shirt", "Casual button-up", "Lightweight hoodie"],
      icon := .Shirt },
    { category := "Bottom",
      items := ["Versatile jeans", "Casual chinos", "Comfortable shorts"],
      icon := .ShoppingBag },
    { category := "Footwear",
      items := ["Classic sneakers", "Casual shoes", "Comfortable slip-ons"],
      icon := .Footprints } ]

/-- The pure dispatch at the heart of `generateOutfitRecommendations` in
App.tsx: lowercase the input, then test the keyword groups in source order
(date/dinner, brunch/friends, work/office) and return the matching canned
set, defaulting to the casual set. -/
def resolvePhrase (input : String) : List OutfitRecommendation :=
  let lowerInput := strToLower input
  if strIncludes lowerInput "date" || strIncludes lowerInput "dinner" then
    dateNightSet
  else if strIncludes lowerInput "brunch" || strIncludes lowerInput "friends" then
    brunchSet
  else if strIncludes lowerInput "work" || strIncludes lowerInput "office" then
    workSet
  else
    casualSet

/-- One entry of `event.results` seen by the `onresult` handler: a
transcript string and the `isFinal` flag. (The handler reads
`results[i][0].transcript`, i.e. the first alternative; we model the slice
`results[resultIndex ..< results.length]` as a list of these.) -/
structure SpeechSegment where
  transcript : String
  isFinal : Bool
deriving DecidableEq, Repr

/-- The React state of `App`, together with the parts of the environment the
claims need: `supported` records whether a platform speech capability exists
(`recognitionRef.current` non-null), and `pendingResolves` records the
`setTimeout` callbacks scheduled by `onresult` that have not fired yet, in
scheduling order. -/
structure AppState where
  isListening : Bool
  transcript : String
  showResults : Bool
  outfitRecommendations : List OutfitRecommendation
  supported : Bool
  pendingResolves : List String
deriving DecidableEq, Repr

/-- The `generateOutfitRecommendations` function of App.tsx as a state
transformer: computes `resolvePhrase input` and performs the three
`setState` calls (recommendations, showResults := true,
isListening := false). -/
def generateOutfitRecommendations (input : String) (st : AppState) : AppState :=
  { st with
    outfitRecommendations := resolvePhrase input
    showResults := true
    isListening := false }

/-- The `onresult` handler: walk the event segments in order accumulating a
final-transcript string and an interim-transcript string (the `for` loop),
exactly as the source's `finalTranscript += ...` / `interimTranscript += ...`. -/
def collectTranscripts (segs : List SpeechSegment) : String × String :=
  segs.foldl
    (fun acc seg =>
      if seg.isFinal then (acc.1 ++ seg.transcript, acc.2)
      else (acc.1, acc.2 ++ seg.transcript))
    ("", "")

/-- The body of the `onresult` handler: set the transcript to
`finalTranscript || interimTranscript`, and when the final transcript is
non-empty schedule a settle-delay resolution of it (the 500 ms `setTimeout`,
which the source never cancels). -/
def onresult (st : AppState) (segs : List SpeechSegment) : AppState :=
  let finalTranscript := (collectTranscripts segs).1
  let interimTranscript := (collectTranscripts segs).2
  let st1 := { st with
    transcript := if finalTranscript = "" then interimTranscript else finalTranscript }
  if finalTranscript = "" then st1
  else { st1 with pendingResolves := st1.pendingResolves ++ [finalTranscript] }

/-- `startListening`: guarded by `recognitionRef.current && !isListening`;
clears the transcript, leaves the results view and enters listening. -/
def startListening (st : AppState) : AppState :=
  if st.supported && !st.isListening then
    { st with transcript := "", showResults := false, isListening := true }
  else st

/-- `stopListening`: guarded by `recognitionRef.current && isListening`;
asks the capability to stop and clears the listening flag. It does not touch
`pendingResolves`. -/
def stopListening (st : AppState) : AppState :=
  if st.supported && st.isListening then { st with isListening := false }
  else st

/-- `handlePromptClick`: set the transcript to the canned prompt and resolve
it immediately (no settle delay). -/
def handlePromptClick (prompt : String) (st : AppState) : AppState :=
  generateOutfitRecommendations prompt { st with transcript := prompt }

/-- `resetApp`: leave the results view and clear transcript and
recommendations. (It does not touch `isListening`.) -/
def resetApp (st : AppState) : AppState :=
  { st with showResults := false, transcript := "", outfitRecommendations := [] }

/-- The events a session can process: the two user actions on the mic
button, the three platform callbacks (which can only fire when a platform
capability exists), a canned-prompt click, the firing of the earliest pending
settle-delay timeout, and the reset action. -/
inductive Event where
  | start
  | stop
  | result (segs : List SpeechSegment)
  | error
  | ended
  | promptClick (prompt : String)
  | timerFire
  | reset
deriving DecidableEq, Repr

/-- One step of the session state machine. `onerror` and `onend` both just
clear the listening flag; `timerFire` runs the earliest scheduled
settle-delay callback if one is pending. -/
def step (st : AppState) : Event → AppState
  | .start => startListening st
  | .stop => stopListening st
  | .result segs => if st.supported then onresult st segs else st
  | .error => if st.supported then { st with isListening := false } else st
  | .ended => if st.supported then { st with isListening := false } else st
  | .promptClick prompt => handlePromptClick prompt st
  | .timerFire =>
    match st.pendingResolves with
    | [] => st
    | t :: rest => generateOutfitRecommendations t { st with pendingResolves := rest }
  | .reset => resetApp st

/-- The initial React state: nothing captured, nothing resolved; `supported`
records whether the platform speech capability was found at mount. -/
def initState (supported : Bool) : AppState :=
  { isListening := false
    transcript := ""
    showResults := false
    outfitRecommendations := []
    supported := supported
    pendingResolves := [] }

/-- Run a sequence of events from a state. -/
def run (st : AppState) (evs : List Event) : AppState :=
  evs.foldl step st

/-- The spec's `SessionState` enumeration. -/
inductive SessionState where
  | Idle
  | Listening
  | Resolved
deriving DecidableEq, Repr

/-- The spec's session state as read off the React state: `Listening` while
the listening flag is set, `Resolved` while the results view is shown,
`Idle` otherwise. -/
def sessionState (st : AppState) : SessionState :=
  if st.isListening then .Listening
  else if st.showResults then .Resolved
  else .Idle

/-! ## Helper lemmas -/

/-- Concatenation of a list of strings, in order. -/
def concatAll : List String → String
  | [] => ""
  | s :: rest => s ++ concatAll rest

theorem collect_foldl_eq (segs : List SpeechSegment) (a b : String) :
    segs.foldl
      (fun acc seg =>
        if seg.isFinal then (acc.1 ++ seg.transcript, acc.2)
        else (acc.1, acc.2 ++ seg.transcript))
      (a, b) =
      (a ++ concatAll ((segs.filter fun g => g.isFinal).map fun g => g.transcript),
       b ++ concatAll ((segs.filter fun g => !g.isFinal).map fun g => g.transcript)) := by
  induction segs generalizing a b with
  | nil => simp [concatAll, String.append_empty]
  | cons seg rest ih =>
    by_cases hf : seg.isFinal
    · simp [hf, ih, concatAll, String.append_assoc]
    · simp [hf, ih, concatAll, String.append_assoc]

theorem collectTranscripts_eq (segs : List SpeechSegment) :
    collectTranscripts segs =
      (concatAll ((segs.filter fun g => g.isFinal).map fun g => g.transcript),
       concatAll ((segs.filter fun g => !g.isFinal).map fun g => g.transcript)) := by
  unfold collectTranscripts
  rw [collect_foldl_eq]
  simp [String.empty_append]

theorem resolvePhrase_ne_nil (s : String) : resolvePhrase s ≠ [] := by
  simp only [resolvePhrase]
  split
  · simp [dateNightSet]
  · split
    · simp [brunchSet]
    · split
      · simp [workSet]
      · simp [casualSet]

/-- The inductive invariant behind the spec's state invariant: whenever the
results view is shown, the recommendation list is non-empty. -/
def resolvedInv (st : AppState) : Prop :=
  st.showResults = true → st.outfitRecommendations ≠ []

theorem resolvedInv_step (st : AppState) (e : Event) (h : resolvedInv st) :
    resolvedInv (step st e) := by
  unfold resolvedInv at h ⊢
  cases e with
  | start =>
    by_cases hc : (st.supported && !st.isListening) = true
    · simp [step, startListening, hc]
    · simpa [step, startListening, hc] using h
  | stop =>
    by_cases hc : (st.supported && st.isListening) = true
    · simpa [step, stopListening, hc] using h
    · simpa [step, stopListening, hc] using h
  | result segs =>
    by_cases hc : st.supported = true
    · by_cases hf : (collectTranscripts segs).1 = ""
      · simpa [step, onresult, hc, hf] using h
      · simpa [step, onresult, hc, hf] using h
    · simpa [step, hc] using h
  | error =>
    by_cases hc : st.supported = true
    · simpa [step, hc] using h
    · simpa [step, hc] using h
  | ended =>
    by_cases hc : st.supported = true
    · simpa [step, hc] using h
    · simpa [step, hc] using h
  | promptClick prompt =>
    simp only [step, handlePromptClick, generateOutfitRecommendations]
    intro _
    exact resolvePhrase_ne_nil prompt
  | timerFire =>
    cases hpr : st.pendingResolves with
    | nil => simpa [step, hpr] using h
    | cons t rest =>
      simp only [step, hpr, generateOutfitRecommendations]
      intro _
      exact resolvePhrase_ne_nil t
  | reset => simp [step, resetApp]

theorem resolvedInv_run (st : AppState) (evs : List Event) (h : resolvedInv st) :
    resolvedInv (run st evs) := by
  induction evs generalizing st with
  | nil => exact h
  | cons e rest ih => exact ih (step st e) (resolvedInv_step st e h)

theorem step_unsupported_flags (st : AppState) (e : Event)
    (hsup : st.supported = false) (hl : st.isListening = false) :
    (step st e).supported = false ∧ (step st e).isListening = false := by
  cases e with
  | start => simp [step, startListening, hsup, hl]
  | stop => simp [step, stopListening, hsup, hl]
  | result segs => simp [step, hsup, hl]
  | error => simp [step, hsup, hl]
  | ended => simp [step, hsup, hl]
  | promptClick prompt =>
    simp [step, handlePromptClick, generateOutfitRecommendations, hsup]
  | timerFire =>
    cases hpr : st.pendingResolves with
    | nil => simp [step, hpr, hsup, hl]
    | cons t rest => simp [step, hpr, generateOutfitRecommendations, hsup]
  | reset => simp [step, resetApp, hsup, hl]

theorem run_unsupported_flags (st : AppState) (evs : List Event)
    (hsup : st.supported = false) (hl : st.isListening = false) :
    (run st evs).supported = false ∧ (run st evs).isListening = false := by
  induction evs generalizing st with
  | nil => exact ⟨hsup, hl⟩
  | cons e rest ih =>
    have h := step_unsupported_flags st e hsup hl
    simpa [run, List.foldl] using ih (step st e) h.1 h.2

/-! ## Claim theorems -/

/-- Claim C1: `resolvePhrase` tests the keyword groups in the fixed priority
order date/dinner, then brunch/friends, then work/office, with the first
matching group winning; in particular the phrase "brunch after work", which
contains both "brunch" and "work", resolves to the Brunch set. -/
theorem resolve_priority_order (s : String) :
    ((strIncludes (strToLower s) "date" || strIncludes (strToLower s) "dinner") = true →
      resolvePhrase s = dateNightSet) ∧
    ((strIncludes (strToLower s) "date" || strIncludes (strToLower s) "dinner") = false →
      (strIncludes (strToLower s) "brunch" || strIncludes (strToLower s) "friends") = true →
      resolvePhrase s = brunchSet) ∧
    ((strIncludes (strToLower s) "date" || strIncludes (strToLower s) "dinner") = false →
      (strIncludes (strToLower s) "brunch" || strIncludes (strToLower s) "friends") = false →
      (strIncludes (strToLower s) "work" || strIncludes (strToLower s) "office") = true →
      resolvePhrase s = workSet) ∧
    resolvePhrase "brunch after work" = brunchSet := by
  refine ⟨?_, ?_, ?_, by decide⟩
  · intro h1
    simp [resolvePhrase, h1]
  · intro h1 h2
    simp [resolvePhrase, h1, h2]
  · intro h1 h2 h3
    simp [resolvePhrase, h1, h2, h3]

/-- Witness for C1: the brunch/friends group wins over work/office on the
concrete phrase "brunch after work". -/
theorem resolve_priority_order_witness :
    resolvePhrase "brunch after work" = brunchSet :=
  (resolve_priority_order "brunch after work").2.1 (by decide) (by decide)

/-- Claim C2: every phrase containing "date" or "dinner" as a substring
(case-insensitively, with any surrounding text) resolves to exactly the
Date-night set with its three categories and nine literal items. -/
theorem resolve_date_dinner (s : String)
    (h : strIncludes (strToLower s) "date" = true ∨
      strIncludes (strToLower s) "dinner" = true) :
    resolvePhrase s =
      [ { category := "Top",
          items := ["Fitted button-down shirt", "Slim-fit blazer", "Dark colored polo"],
          icon := .Shirt },
        { category := "Bottom",
          items := ["Dark wash jeans", "Chinos in navy or grey", "Tailored dress pants"],
          icon := .ShoppingBag },
        { category := "Footwear",
          items := ["Chelsea boots", "Leather loafers", "Clean white sneakers"],
          icon := .Footprints } ] := by
  rcases h with h | h <;> simp [resolvePhrase, h, dateNightSet]

/-- Witness for C2 at the mixed-case phrase "Dinner at Eight". -/
theorem resolve_date_dinner_witness :
    resolvePhrase "Dinner at Eight" = dateNightSet :=
  resolve_date_dinner "Dinner at Eight" (Or.inr (by decide))

/-- Claim C3: for every capture result event, the displayed transcript is the
concatenation of the final segments when that concatenation is non-empty,
and otherwise the concatenation of the interim segments (final takes
precedence over interim within a single event). -/
theorem onresult_transcript_final_precedence (st : AppState) (segs : List SpeechSegment) :
    (onresult st segs).transcript =
      if concatAll ((segs.filter fun g => g.isFinal).map fun g => g.transcript) = "" then
        concatAll ((segs.filter fun g => !g.isFinal).map fun g => g.transcript)
      else
        concatAll ((segs.filter fun g => g.isFinal).map fun g => g.transcript) := by
  simp only [onresult, collectTranscripts_eq]
  by_cases hf : concatAll ((segs.filter fun g => g.isFinal).map fun g => g.transcript) = ""
  · simp [hf]
  · simp [hf]

/-- Counterexample to claim C4 as stated: in the session that starts
listening, hears the final transcript "dinner date", and is stopped before
the 500 ms settle delay fires, the pending resolution is NOT cancelled — once
the scheduled timeout runs, a recommendation list is produced, so it is false
that no recommendation is ever produced and that the session stays Idle. -/
theorem stop_cancel_counterexample :
    ¬ (((run (initState true)
          [.start, .result [{ transcript := "dinner date", isFinal := true }], .stop,
            .timerFire]).outfitRecommendations = []) ∧
        sessionState (run (initState true)
          [.start, .result [{ transcript := "dinner date", isFinal := true }], .stop,
            .timerFire]) = .Idle) := by
  decide

/-- Claim C4 (amended): invoking stop while Listening with a settle-delay
resolution pending makes the session Idle but does not cancel the pending
resolution: the scheduled timeout survives the stop, and when it fires it
produces a non-empty recommendation list and the session becomes Resolved. -/
theorem stop_does_not_cancel_pending (st : AppState) (t : String) (rest : List String)
    (hsup : st.supported = true) (hl : st.isListening = true)
    (hsr : st.showResults = false) (hp : st.pendingResolves = t :: rest) :
    sessionState (stopListening st) = .Idle ∧
    (stopListening st).pendingResolves = t :: rest ∧
    (step (stopListening st) .timerFire).outfitRecommendations = resolvePhrase t ∧
    (step (stopListening st) .timerFire).outfitRecommendations ≠ [] ∧
    sessionState (step (stopListening st) .timerFire) = .Resolved := by
  have hstop : stopListening st = { st with isListening := false } := by
    simp [stopListening, hsup, hl]
  refine ⟨?_, ?_, ?_, ?_, ?_⟩ <;>
    simp [hstop, sessionState, hsr, step, hp, generateOutfitRecommendations,
      resolvePhrase_ne_nil]

/-- A concrete Listening state with a pending settle-delay resolution. -/
def exampleListeningState : AppState :=
  { isListening := true
    transcript := "dinner date"
    showResults := false
    outfitRecommendations := []
    supported := true
    pendingResolves := ["dinner date"] }

/-- Witness for the amended C4 at a concrete Listening state. -/
theorem stop_does_not_cancel_pending_witness :
    sessionState (stopListening exampleListeningState) = .Idle ∧
    (stopListening exampleListeningState).pendingResolves = ["dinner date"] ∧
    (step (stopListening exampleListeningState) .timerFire).outfitRecommendations =
      resolvePhrase "dinner date" ∧
    (step (stopListening exampleListeningState) .timerFire).outfitRecommendations ≠ [] ∧
    sessionState (step (stopListening exampleListeningState) .timerFire) = .Resolved :=
  stop_does_not_cancel_pending exampleListeningState "dinner date" [] rfl rfl rfl rfl

/-- Counterexample to claim C5 as stated: after resolving a canned phrase and
then starting capture again, the state is Listening while the recommendation
list from the previous resolution is still non-empty, so non-emptiness of the
list is not equivalent to being Resolved. -/
theorem recs_iff_resolved_counterexample :
    ¬ ((run (initState true)
          [.promptClick "dinner date", .start]).outfitRecommendations ≠ [] ↔
        sessionState (run (initState true)
          [.promptClick "dinner date", .start]) = .Resolved) := by
  decide

/-- Claim C5 (amended): in every state reachable from the initial state, a
Resolved session has a non-empty recommendation list; the converse direction
of the claimed equivalence fails because `startListening` leaves the
recommendation list unchanged while leaving the Resolved view. -/
theorem resolved_implies_recs_nonempty (b : Bool) (evs : List Event)
    (h : sessionState (run (initState b) evs) = .Resolved) :
    (run (initState b) evs).outfitRecommendations ≠ [] := by
  have hinv : resolvedInv (run (initState b) evs) :=
    resolvedInv_run (initState b) evs (by simp [resolvedInv, initState])
  have hsr : (run (initState b) evs).showResults = true := by
    by_cases hl : (run (initState b) evs).isListening = true
    · simp [sessionState, hl] at h
    · by_cases hs : (run (initState b) evs).showResults = true
      · exact hs
      · simp [sessionState, hl, hs] at h
  exact hinv hsr

/-- Witness for the amended C5 at a one-event trace. -/
theorem resolved_implies_recs_nonempty_witness :
    (run (initState true) [Event.promptClick "brunch with friends"]).outfitRecommendations ≠ [] :=
  resolved_implies_recs_nonempty true [Event.promptClick "brunch with friends"] (by decide)

/-- Claim C6: from any Resolved state, reset yields an Idle session with an
empty transcript and an empty recommendation list, whatever the prior
transcript and recommendations were. -/
theorem reset_after_resolved (st : AppState) (h : sessionState st = .Resolved) :
    sessionState (resetApp st) = .Idle ∧
    (resetApp st).transcript = "" ∧
    (resetApp st).outfitRecommendations = [] := by
  have hl : st.isListening = false := by
    by_cases hl : st.isListening = true
    · simp [sessionState, hl] at h
    · simpa using hl
  refine ⟨?_, rfl, rfl⟩
  simp [resetApp, sessionState, hl]

/-- A concrete Resolved state with a non-trivial transcript and list. -/
def exampleResolvedState : AppState :=
  { isListening := false
    transcript := "Heading to work"
    showResults := true
    outfitRecommendations := workSet
    supported := true
    pendingResolves := [] }

/-- Witness for C6 at a concrete Resolved state. -/
theorem reset_after_resolved_witness :
    sessionState (resetApp exampleResolvedState) = .Idle ∧
    (resetApp exampleResolvedState).transcript = "" ∧
    (resetApp exampleResolvedState).outfitRecommendations = [] :=
  reset_after_resolved exampleResolvedState (by decide)

/-- Claim C7: `resolvePhrase` is total: for every phrase it returns exactly
the three categories Top, Bottom, Footwear in that order, each with exactly
three items, and it returns the Casual default set when no keyword group
matches. -/
theorem resolve_total_three_categories (s : String) :
    (resolvePhrase s).map (fun r => r.category) = ["Top", "Bottom", "Footwear"] ∧
    (∀ r ∈ resolvePhrase s, r.items.length = 3) ∧
    ((strIncludes (strToLower s) "date" || strIncludes (strToLower s) "dinner") = false →
      (strIncludes (strToLower s) "brunch" || strIncludes (strToLower s) "friends") = false →
      (strIncludes (strToLower s) "work" || strIncludes (strToLower s) "office") = false →
      resolvePhrase s = casualSet) := by
  simp only [resolvePhrase]
  split
  · rename_i h1
    exact ⟨by decide, by decide, fun hf _ _ => by simp [h1] at hf⟩
  · split
    · rename_i h2
      exact ⟨by decide, by decide, fun _ hf _ => by simp [h2] at hf⟩
    · split
      · rename_i h3
        exact ⟨by decide, by decide, fun _ _ hf => by simp [h3] at hf⟩
      · exact ⟨by decide, by decide, fun _ _ _ => rfl⟩

/-- Witness for C7 at the empty phrase, which matches no keyword group. -/
theorem resolve_total_three_categories_witness :
    resolvePhrase "" = casualSet :=
  (resolve_total_three_categories "").2.2 (by decide) (by decide) (by decide)

/-- Claim C8: when no platform speech capability exists, `startListening` is
a silent no-op (the whole state, transcript, recommendations and session
state included, is unchanged), and no event sequence from the unsupported
initial state ever makes the session enter Listening. -/
theorem unsupported_start_is_noop :
    (∀ st : AppState, st.supported = false → step st .start = st) ∧
    (∀ evs : List Event, (run (initState false) evs).isListening = false) := by
  constructor
  · intro st h
    simp [step, startListening, h]
  · intro evs
    exact (run_unsupported_flags (initState false) evs rfl rfl).2

/-- Witness for C8: start on the unsupported initial state changes nothing. -/
theorem unsupported_start_is_noop_witness :
    step (initState false) Event.start = initState false :=
  unsupported_start_is_noop.1 (initState false) rfl

/-- Claim C9: the resolver is pure and deterministic: the recommendation list
produced by `generateOutfitRecommendations` depends only on the input phrase
and never on the state it runs against, and is always `resolvePhrase input`. -/
theorem generateOutfitRecommendations_state_independent (input : String)
    (st st' : AppState) :
    (generateOutfitRecommendations input st).outfitRecommendations =
      (generateOutfitRecommendations input st').outfitRecommendations ∧
    (generateOutfitRecommendations input st).outfitRecommendations =
      resolvePhrase input :=
  ⟨rfl, rfl⟩

/-- Claim C10: whenever `startListening` succeeds (capability present, not
already listening), it clears the transcript, leaves the results view, enters
listening, and leaves the recommendation list exactly as it was. -/
theorem startListening_preserves_recommendations (st : AppState)
    (hsup : st.supported = true) (hl : st.isListening = false) :
    (startListening st).outfitRecommendations = st.outfitRecommendations ∧
    (startListening st).transcript = "" ∧
    (startListening st).showResults = false ∧
    (startListening st).isListening = true := by
  simp [startListening, hsup, hl]

/-- A concrete Resolved state used to exercise a successful start. -/
def exampleResolvedBrunchState : AppState :=
  { isListening := false
    transcript := "Meeting friends for brunch"
    showResults := true
    outfitRecommendations := brunchSet
    supported := true
    pendingResolves := [] }

/-- Witness for C10 at a concrete Resolved state holding the Brunch set. -/
theorem startListening_preserves_recommendations_witness :
    (startListening exampleResolvedBrunchState).outfitRecommendations =
      exampleResolvedBrunchState.outfitRecommendations ∧
    (startListening exampleResolvedBrunchState).transcript = "" ∧
    (startListening exampleResolvedBrunchState).showResults = false ∧
    (startListening exampleResolvedBrunchState).isListening = true :=
  startListening_preserves_recommendations exampleResolvedBrunchState rfl rfl

end Fitcheck
